import Mathlib

/-!
Verification development for the session/navigation/search core of `bot.py`.

The bot's knowledge tree is JSON loaded from `data.json`: nested objects whose
leaves are plain strings or objects of labelled string fields.  We embed the
dynamic values the code dispatches on (`isinstance(..., (dict, list, str))`) as
the inductive `Data`; JSON objects become association lists in insertion order
(JSON objects have unique keys, so first-match lookup agrees with Python dict
lookup).  Numeric/boolean/null scalars never occur in the tree handled by the
navigation and search code paths and are not modelled.

Python strings are modelled as Lean `String`; `str.lower()` is modelled as a
character-wise `Char.toLower` map (faithful on the ASCII range).
-/

inductive Data where
  | str : String → Data
  | dict : List (String × Data) → Data
  | list : List Data → Data

/-- Model of a Telegram reply: a plain text reply, a reply carrying a
`ReplyKeyboardMarkup` (rows of button labels, plus the message text), a reply
with `parse_mode="MarkdownV2"`, or a reply with `parse_mode="Markdown"`.
Presentation attributes (`resize_keyboard`, `input_field_placeholder`,
`one_time_keyboard`) are not modelled. -/
inductive Render where
  | text : String → Render
  | menu : List (List String) → String → Render
  | markdownV2 : String → Render
  | markdownV1 : String → Render
deriving DecidableEq, Repr

/-- Per-user `context.user_data`: the `authenticated` flag and the navigation
`path`. -/
structure Session where
  authenticated : Bool
  path : List String
deriving DecidableEq, Repr

/-- The mutable state the handlers touch: the caller's session and the shared
`context.bot_data['active_users']` registry (user id, last-active time in
seconds, insertion order preserved as in a Python dict). -/
structure BotState where
  session : Session
  registry : List (Nat × Int)
deriving DecidableEq, Repr

/-! ## String helpers -/

/-- Whether the first list is a prefix of the second (character comparison). -/
def leadsWith : List Char → List Char → Bool
  | [], _ => true
  | _ :: _, [] => false
  | a :: as, b :: bs => a == b && leadsWith as bs

/-- Whether `q` occurs as a contiguous sublist of the second list: the Python
`in` substring test. -/
def hasSubList (q : List Char) : List Char → Bool
  | [] => q.isEmpty
  | b :: bs => leadsWith q (b :: bs) || hasSubList q bs

/-- Python `q in s` on strings (case-sensitive substring test). -/
def hasSubStr (q s : String) : Bool :=
  hasSubList q.data s.data

/-- Model of Python `s.lower()` as a character list. -/
def lowerData (s : String) : List Char :=
  s.data.map Char.toLower

/-- Python `query.lower() in s.lower()`: the case-insensitive substring test
used by `search_data`. -/
def containsSub (q s : String) : Bool :=
  hasSubList (lowerData q) (lowerData s)

def dropLeadingWs : List Char → List Char
  | [] => []
  | c :: rest => if c.isWhitespace then dropLeadingWs rest else c :: rest

/-- Python `s.strip()`: drop leading and trailing whitespace. -/
def pyStrip (s : String) : String :=
  ⟨dropLeadingWs ((dropLeadingWs s.data.reverse).reverse)⟩

/-! ## escape_markdown (bot.py lines 45-48) -/

/-- The fixed special-character set of `escape_markdown`
(`r"\_*\[\]()~`>#+-=|{}.!"`); the backquote and the braces are written by
code point. -/
def escapeChars : List Char :=
  ['\\', '_', '*', '[', ']', '(', ')', '~', Char.ofNat 96,
   '>', '#', '+', '-', '=', '|', Char.ofNat 123, Char.ofNat 125, '.', '!']

def isSpecialChar (c : Char) : Bool :=
  escapeChars.contains c

/-- `escape_markdown`: the `re.sub` with a single-character class replaces every
occurrence of a special character `c` by the two characters `\c`, which is a
character-wise expansion of the input. -/
def escape_markdown (s : String) : String :=
  ⟨(s.data.map fun c => if isSpecialChar c then ['\\', c] else [c]).flatten⟩

/-- A character list is well escaped when it parses as a sequence of units,
each either a non-special character or a backslash followed by the special
character it escapes; so no character of the special set occurs unescaped. -/
def wellEscaped : List Char → Bool
  | [] => true
  | c :: rest =>
    if c = '\\' then
      match rest with
      | [] => false
      | d :: rest2 => isSpecialChar d && wellEscaped rest2
    else
      !(isSpecialChar c) && wellEscaped rest

/-! ## format_description (bot.py lines 32-42) -/

mutual
/-- Model of Python `repr` for the tree values (used via `str()` on non-string
descriptions); faithful for strings that contain no quote or escape
characters, which is all this development evaluates. -/
def pyRepr : Data → String
  | .str s => "'" ++ s ++ "'"
  | .dict kvs => "\x7b" ++ pyReprEntries kvs ++ "\x7d"
  | .list items => "[" ++ pyReprItems items ++ "]"

def pyReprEntries : List (String × Data) → String
  | [] => ""
  | [(k, v)] => "'" ++ k ++ "': " ++ pyRepr v
  | (k, v) :: rest => "'" ++ k ++ "': " ++ pyRepr v ++ ", " ++ pyReprEntries rest

def pyReprItems : List Data → String
  | [] => ""
  | [v] => pyRepr v
  | v :: rest => pyRepr v ++ ", " ++ pyReprItems rest
end

/-- Python `str(value)` as used in the f-string of `format_description`:
a string renders as itself, containers render through `repr`. -/
def dataText : Data → String
  | .str s => s
  | d => pyRepr d

/-- One line of the dict branch of `format_description`: the f-string builds
a bullet, the key between asterisks, a colon, and the value between
underscores, ending in a newline. -/
def fieldLine (k : String) (v : Data) : String :=
  "• *" ++ k ++ "*: _" ++ dataText v ++ "_\n"

/-- `format_description`: a dict renders as the accumulated field lines,
stripped; a string verbatim; anything else through `str()`. -/
def format_description : Data → String
  | .dict kvs => pyStrip (kvs.foldl (fun acc p => acc ++ fieldLine p.1 p.2) "")
  | .str s => s
  | .list items => pyRepr (.list items)

/-! ## search_data (bot.py lines 353-380) -/

mutual
/-- `search_data(query, data, path)`: recursive scan.  In a dict, each key is
tested (case-insensitively) and the value is recorded on a key match, then the
value is scanned at the extended path; a list is scanned element-wise at the
same path; a string is recorded when the query occurs in it.  The guard
`isinstance(value, (dict, list, str))` is always satisfied because every
`Data` value has one of those three shapes. -/
def search_data (q : String) : Data → List String → List (List String × Data)
  | .str s, path => if containsSub q s then [(path, .str s)] else []
  | .dict kvs, path => searchEntries q kvs path
  | .list items, path => searchItems q items path
termination_by structural d => d

/-- The dict loop of `search_data`. -/
def searchEntries (q : String) :
    List (String × Data) → List String → List (List String × Data)
  | [], _ => []
  | (k, v) :: rest, path =>
    (if containsSub q k then [(path ++ [k], v)] else [])
      ++ search_data q v (path ++ [k]) ++ searchEntries q rest path
termination_by structural l => l

/-- The list loop of `search_data`. -/
def searchItems (q : String) :
    List Data → List String → List (List String × Data)
  | [], _ => []
  | item :: rest, path => search_data q item path ++ searchItems q rest path
termination_by structural l => l
end

/-- A scanned occurrence of the traversal of `search_data`: a dict key (with
its path including the key, and the value recorded on a match) or a string. -/
inductive Occ where
  | keyOcc : List String → String → Data → Occ
  | txtOcc : List String → String → Occ

mutual
/-- All occurrences `search_data` tests, in traversal (discovery) order. -/
def scanOccs : Data → List String → List Occ
  | .str s, path => [.txtOcc path s]
  | .dict kvs, path => scanEntries kvs path
  | .list items, path => scanItems items path
termination_by structural d => d

def scanEntries : List (String × Data) → List String → List Occ
  | [], _ => []
  | (k, v) :: rest, path =>
    .keyOcc (path ++ [k]) k v :: (scanOccs v (path ++ [k]) ++ scanEntries rest path)
termination_by structural l => l

def scanItems : List Data → List String → List Occ
  | [], _ => []
  | item :: rest, path => scanOccs item path ++ scanItems rest path
termination_by structural l => l
end

/-- Whether the query matches an occurrence (the test `search_data` applies). -/
def occMatches (q : String) : Occ → Bool
  | .keyOcc _ k _ => containsSub q k
  | .txtOcc _ s => containsSub q s

/-- The result `search_data` records for a matching occurrence. -/
def occResult : Occ → List String × Data
  | .keyOcc p _ v => (p, v)
  | .txtOcc p s => (p, .str s)

def occIsTxt : Occ → Bool
  | .keyOcc _ _ _ => false
  | .txtOcc _ _ => true

/-- A `FieldSet` leaf in the sense of the specification: a dict all of whose
values are plain strings. -/
def fieldSet (kvs : List (String × String)) : Data :=
  .dict (kvs.map fun p => (p.1, Data.str p.2))

/-! ## Structural characterisation of the search scan -/

mutual
theorem search_data_eq (q : String) : (d : Data) → (path : List String) →
    search_data q d path = ((scanOccs d path).filter (occMatches q)).map occResult
  | .str s, path => by
    cases h : containsSub q s <;>
      simp [search_data, scanOccs, occMatches, occResult, h]
  | .dict kvs, path => by
    simpa [search_data, scanOccs] using searchEntries_eq q kvs path
  | .list items, path => by
    simpa [search_data, scanOccs] using searchItems_eq q items path

theorem searchEntries_eq (q : String) :
    (kvs : List (String × Data)) → (path : List String) →
    searchEntries q kvs path
      = ((scanEntries kvs path).filter (occMatches q)).map occResult
  | [], path => by simp [searchEntries, scanEntries]
  | (k, v) :: rest, path => by
    have h1 := search_data_eq q v (path ++ [k])
    have h2 := searchEntries_eq q rest path
    cases hk : containsSub q k <;>
      simp [searchEntries, scanEntries, List.filter_cons, occMatches, occResult,
        hk, h1, h2]

theorem searchItems_eq (q : String) :
    (items : List Data) → (path : List String) →
    searchItems q items path
      = ((scanItems items path).filter (occMatches q)).map occResult
  | [], path => by simp [searchItems, scanItems]
  | item :: rest, path => by
    have h1 := search_data_eq q item path
    have h2 := searchItems_eq q rest path
    simp [searchItems, scanItems, h1, h2]
end

/-! ## Message constants of the handlers -/

def authPromptMsg : String := "Пожалуйста, авторизуйтесь с помощью команды /start."

def unrecognizedMsg : String :=
  "Неизвестная команда. Пожалуйста, выберите раздел, подраздел или под-подраздел."

def errorRetryMsg : String := "Произошла ошибка. Попробуйте еще раз."

def navButtonsMsg : String := "Используйте кнопки для навигации."

def chooseChapterMsg : String := "Выберите главу:"

def backBtn : String := "Назад"

def mainMenuBtn : String := "Главное меню"

def exitDoneMsg : String :=
  "Вы вышли из бота. Для повторной авторизации используйте команду /start."

def notAuthorizedMsg : String := "Вы не авторизованы."

def accessDeniedMsg : String :=
  "Доступ запрещен. Чтобы получить доступ, нажмите кнопку 'Отправить запрос'."

def commandsHelp : String :=
  "Доступные команды:\n\n"
    ++ "/start - Начать работу с ботом\n"
    ++ "/exit - Выйти из бота\n"
    ++ "/help - Показать это сообщение\n"
    ++ "/add_user - Добавить пользователя (только для владельца)\n"
    ++ "/search - Поиск по базе данных\n\n"
    ++ "Для навигации используйте кнопки или введите название раздела."

def startHelp (firstName : String) : String :=
  "Привет, " ++ firstName ++ "! Я механик Никитич.\n\n" ++ commandsHelp

def searchHintMsg : String := "Введите ключевое слово для поиска после команды /search."

def nothingFoundMsg : String := "Ничего не найдено."

def chooseSubMsg (s : String) : String :=
  "Вы выбрали раздел '" ++ s ++ "'. Выберите подраздел:"

def chooseSubsubMsg (ss : String) : String :=
  "Вы выбрали подраздел '" ++ ss ++ "'. Выберите под-подраздел:"

/-! ## Navigation (bot.py lines 424-583) -/

/-- One keyboard row per label, as `[[section] for section in ...keys()]`. -/
def keyRows (kvs : List (String × Data)) : List (List String) :=
  kvs.map fun p => [p.1]

/-- `show_current_level`: renders the level the current path points at.  The
shape errors the dynamic code can raise (`KeyError` on a stale path segment,
`AttributeError` when a section value is not a dict) are caught by the
function's own `try/except`, which replies with the retry-error message; they
are modelled as that reply. -/
def show_current_level (sections : List (String × Data)) :
    List String → List Render
  | [] => [.menu (keyRows sections) chooseChapterMsg]
  | [s] =>
    match List.lookup s sections with
    | some (.dict kvs) =>
        [.menu (keyRows kvs ++ [[backBtn, mainMenuBtn]]) (chooseSubMsg s)]
    | _ => [.text errorRetryMsg]
  | [s, ss] =>
    match List.lookup s sections with
    | some (.dict kvs) =>
      match List.lookup ss kvs with
      | some w =>
        let rows := match w with
          | .dict items => keyRows items
          | _ => []
        [.menu (rows ++ [[backBtn, mainMenuBtn]]) (chooseSubsubMsg ss)]
      | none => [.text errorRetryMsg]
    | _ => [.text errorRetryMsg]
  | _ => []

/-- `main_menu`: reset the path and offer the section keyboard. -/
def main_menu (sections : List (String × Data)) (s : Session) :
    Session × List Render :=
  ({ s with path := [] }, [.menu (keyRows sections) chooseChapterMsg])

/-- `start`: an allow-listed caller is marked authenticated, greeted, and sent
the main menu; anyone else gets the access-denied reply with the request
keyboard and the session is left untouched. -/
def start (sections : List (String × Data)) (inDb : Bool) (firstName : String)
    (s : Session) : Session × List Render :=
  if inDb then
    let s1 : Session := { s with authenticated := true }
    let r := main_menu sections s1
    (r.1, .text (startHelp firstName) :: r.2)
  else
    (s, [.menu [["Отправить запрос"], ["Помощь"]] accessDeniedMsg])

/-- Python `text in value` for a tree value: key membership in a dict,
substring in a string, equality-membership in a list (a string equals no
dict or list). -/
def pyContains (text : String) : Data → Bool
  | .dict kvs => kvs.any fun p => p.1 == text
  | .str s => hasSubStr text s
  | .list items => items.any fun d =>
      match d with
      | .str s => s == text
      | _ => false

/-- The MarkdownV2 leaf message of `handle_message`: escaped label in bold, a
separator line, escaped description in italics. -/
def leafMessage (label : String) (description : Data) : String :=
  "*" ++ escape_markdown label ++ "*\n"
    ++ "────────────\n"
    ++ "_" ++ escape_markdown (format_description description) ++ "_"

/-- The label-resolution chain of `handle_message` (lines 477-525), applied
after the reserved tokens: returns the new path and the renders.

Exception semantics of the dynamic code are modelled by their user-visible
outcome: an exception raised before the path is touched (a `KeyError` or
`TypeError` while evaluating the membership test) makes the retry loop fail
three times and reply with the retry-error message; an exception raised after
a push at depth 2 (indexing a string or list with a string) makes the retry
loop re-dispatch at the grown path, which falls to the unrecognized-input
reply. -/
def navigate (sections : List (String × Data)) (text : String) :
    List String → List String × List Render
  | [] =>
    if sections.any fun p => p.1 == text then
      ([text], show_current_level sections [text])
    else ([], [.text unrecognizedMsg])
  | [s] =>
    match List.lookup s sections with
    | none => ([s], [.text errorRetryMsg])
    | some v =>
      if pyContains text v then
        ([s, text], show_current_level sections [s, text])
      else ([s], [])
  | [s, ss] =>
    match List.lookup s sections with
    | some (.dict kvs) =>
      match List.lookup ss kvs with
      | some (.dict items) =>
        if items.any fun p => p.1 == text then
          match List.lookup text items with
          | some description =>
            ([s, ss, text],
             [.markdownV2 (leafMessage text description),
              .menu [[backBtn, mainMenuBtn]] navButtonsMsg])
          | none => ([s, ss, text], [.text unrecognizedMsg])
        else ([s, ss], [])
      | some w =>
        if pyContains text w then ([s, ss, text], [.text unrecognizedMsg])
        else ([s, ss], [])
      | none => ([s, ss], [.text errorRetryMsg])
    | _ => ([s, ss], [.text errorRetryMsg])
  | p => (p, [.text unrecognizedMsg])

/-- Python `active_users[uid] = now`: update in place or append. -/
def setKey : List (Nat × Int) → Nat → Int → List (Nat × Int)
  | [], uid, now => [(uid, now)]
  | (k, v) :: rest, uid, now =>
    if k == uid then (k, now) :: rest else (k, v) :: setKey rest uid now

/-- `handle_message` (bot.py lines 445-525): reject unauthenticated callers,
refresh the activity registry, handle the reserved tokens, then resolve the
text as a label at the current depth.  `inDb` stands for
`is_user_in_db(user.id)` consulted by the nested `/start` path. -/
def handle_message (sections : List (String × Data)) (inDb : Bool)
    (firstName : String) (uid : Nat) (now : Int) (text : String)
    (st : BotState) : BotState × List Render :=
  if st.session.authenticated = false then
    (st, [.text authPromptMsg])
  else
    let reg := setKey st.registry uid now
    if text = backBtn then
      let newPath := st.session.path.dropLast
      (⟨{ st.session with path := newPath }, reg⟩,
       show_current_level sections newPath)
    else if text = mainMenuBtn then
      let r := main_menu sections st.session
      (⟨r.1, reg⟩, r.2)
    else if text = "/start" then
      let r := start sections inDb firstName st.session
      (⟨r.1, reg⟩, r.2)
    else
      let r := navigate sections text st.session.path
      (⟨{ st.session with path := r.1 }, reg⟩, r.2)

/-- `exit_bot` (bot.py lines 585-599): an unauthenticated caller is told so
and nothing changes; otherwise `user_data.clear()` empties the session (the
cleared flags read back as unauthenticated with an empty path).  The active
registry is not touched. -/
def exit_bot (st : BotState) : BotState × List Render :=
  if st.session.authenticated = false then
    (st, [.text notAuthorizedMsg])
  else
    (⟨⟨false, []⟩, st.registry⟩, [.text exitDoneMsg])

/-- Python `" > ".join(path)`. -/
def joinPath : List String → String
  | [] => ""
  | [s] => s
  | s :: rest => s ++ " > " ++ joinPath rest

/-- The search-results message of `search_command`. -/
def searchResponse (results : List (List String × Data)) : String :=
  results.foldl
    (fun acc pr =>
      acc ++
        match pr.2 with
        | .str v => "*" ++ joinPath pr.1 ++ "*:\n" ++ v ++ "\n\n"
        | _ => "*" ++ joinPath pr.1 ++ "*\n\n")
    "Результаты поиска:\n\n"

/-- `search_command` (bot.py lines 383-421): reject unauthenticated callers,
extract the query, reject an empty query, search and render.  It never
mutates the session or the registry. -/
def search_command (sections : List (String × Data)) (text : String)
    (st : BotState) : BotState × List Render :=
  if st.session.authenticated = false then
    (st, [.text authPromptMsg])
  else
    let query := pyStrip (text.replace "/search" "")
    if query = "" then (st, [.text searchHintMsg])
    else
      let results := search_data query (.dict sections) []
      if results.isEmpty then (st, [.text nothingFoundMsg])
      else (st, [.markdownV1 (searchResponse results)])

/-- The inactivity threshold `INACTIVITY_TIMEOUT` (seconds). -/
def INACTIVITY_TIMEOUT : Int := 43200

/-- `check_inactivity` (bot.py lines 605-623): one sweep tick over the active
registry.  For each stale entry a notification is attempted — `notifyOk`
says whether `send_message` succeeds for that caller; a failure is caught and
logged — and the entry is deleted in the `finally` block either way.  The
function returns the surviving registry and the attempted notifications in
order. -/
def check_inactivity (now : Int) (notifyOk : Nat → Bool) :
    List (Nat × Int) → List (Nat × Int) × List (Nat × Bool)
  | [] => ([], [])
  | (uid, last) :: rest =>
    let r := check_inactivity now notifyOk rest
    if now - last > INACTIVITY_TIMEOUT then
      (r.1, (uid, notifyOk uid) :: r.2)
    else
      ((uid, last) :: r.1, r.2)

/-- The label-match test `handle_message` applies at the current depth: at the
root, key membership in the section dict; at depth 1, Python membership in the
current section's value; at depth 2, Python membership in the current
subsection's value (requiring the lookups the code performs to succeed); at
depth 3 or more no input matches. -/
def labelMatches (sections : List (String × Data)) (path : List String)
    (text : String) : Bool :=
  match path with
  | [] => sections.any fun p => p.1 == text
  | [s] =>
    match List.lookup s sections with
    | some v => pyContains text v
    | none => false
  | [s, ss] =>
    match List.lookup s sections with
    | some (.dict kvs) =>
      match List.lookup ss kvs with
      | some w => pyContains text w
      | none => false
    | _ => false
  | _ => false

/-- Join a list of lines with newline separators (no trailing newline). -/
def joinLines : List String → String
  | [] => ""
  | [l] => l
  | l :: rest => l ++ "\n" ++ joinLines rest

/-- Whether a render is the MarkdownV2 leaf-content message. -/
def isLeafRender : Render → Bool
  | .markdownV2 _ => true
  | _ => false

/-! ## Helper lemmas -/

theorem data_append (a b : String) : (a ++ b).data = a.data ++ b.data := rfl

theorem data_mk (l : List Char) : (String.mk l).data = l := rfl

theorem backslash_special : isSpecialChar '\\' = true := by decide

/-- The escaped expansion of any character list is well escaped. -/
theorem wellEscaped_expansion (cs : List Char) :
    wellEscaped ((cs.map fun c => if isSpecialChar c then ['\\', c] else [c]).flatten)
      = true := by
  induction cs with
  | nil => rfl
  | cons c rest ih =>
    by_cases h : isSpecialChar c = true
    · simp only [List.map_cons, List.flatten_cons, h, if_true, List.cons_append,
        List.nil_append]
      simp [wellEscaped, h, ih]
    · have hc : c ≠ '\\' := fun hb => h (hb ▸ backslash_special)
      have he : (if isSpecialChar c = true then ['\\', c] else [c]) = [c] := if_neg h
      rw [List.map_cons, List.flatten_cons, he, List.singleton_append]
      rw [wellEscaped.eq_def]
      simp [hc, h, ih]

/-- C6.  For every input string, the output of `escape_markdown` contains no
unescaped occurrence of any character of the fixed special set: it parses as a
sequence of plain non-special characters and backslash-escaped special
characters. -/
theorem c6_escape_leaves_no_unescaped (s : String) :
    wellEscaped (escape_markdown s).data = true := by
  rw [escape_markdown, data_mk]
  exact wellEscaped_expansion s.data

/-- C8.  On a sweep tick, the surviving registry is exactly the entries within
the threshold, in order, independent of whether any notification succeeds; a
notification is attempted for every stale entry (stale entries are removed
whatever `notifyOk` returns, and one caller's failed notification never
prevents another's expiry). -/
theorem c8_inactivity_sweep (now : Int) (notifyOk : Nat → Bool)
    (reg : List (Nat × Int)) :
    (check_inactivity now notifyOk reg).1
        = reg.filter (fun e => decide (now - e.2 ≤ INACTIVITY_TIMEOUT))
      ∧ (check_inactivity now notifyOk reg).2
        = (reg.filter (fun e => decide (INACTIVITY_TIMEOUT < now - e.2))).map
            (fun e => (e.1, notifyOk e.1)) := by
  induction reg with
  | nil => exact ⟨rfl, rfl⟩
  | cons e rest ih =>
    obtain ⟨uid, last⟩ := e
    by_cases h : INACTIVITY_TIMEOUT < now - last
    · simp [check_inactivity, List.filter_cons, h, not_le.2 h, ih.1, ih.2]
      rw [if_neg (by omega)]
    · simp [check_inactivity, List.filter_cons, h, not_lt.1 h, ih.1, ih.2]
      rw [if_pos (by omega)]

/-- C9 counterexample.  An authenticated caller with an active registration
runs `/exit`: the session is cleared and the success reply sent, but the
active registration survives, contrary to the claim that `endSession` removes
the caller's active registration. -/
theorem c9_exit_keeps_registration_cex :
    exit_bot ⟨⟨true, []⟩, [(1, 0)]⟩
      = (⟨⟨false, []⟩, [(1, 0)]⟩, [.text exitDoneMsg]) := rfl

/-- C9 (amended).  `exit_bot` succeeds only from the authenticated state: an
authenticated caller's session data is cleared and the success reply sent,
but the active registry is never touched (the registration is only removed
later by the inactivity sweep); a non-authenticated caller is told so and
nothing changes. -/
theorem c9_exit_amended (st : BotState) :
    (exit_bot st).1.registry = st.registry
      ∧ (st.session.authenticated = true →
          (exit_bot st).1.session = ⟨false, []⟩
            ∧ (exit_bot st).2 = [.text exitDoneMsg])
      ∧ (st.session.authenticated = false →
          exit_bot st = (st, [.text notAuthorizedMsg])) := by
  cases h : st.session.authenticated <;>
    simp [exit_bot, h]

theorem c9_exit_amended_witness :
    (exit_bot ⟨⟨true, ["x"]⟩, [(7, 3)]⟩).1.registry = [(7, 3)]
      ∧ (exit_bot ⟨⟨true, ["x"]⟩, [(7, 3)]⟩).1.session = ⟨false, []⟩ :=
  ⟨(c9_exit_amended ⟨⟨true, ["x"]⟩, [(7, 3)]⟩).1,
   ((c9_exit_amended ⟨⟨true, ["x"]⟩, [(7, 3)]⟩).2.1 rfl).1⟩

/-- C10.  A caller whose session lacks the authenticated flag gets only the
prompt to authorize via session start from both the free-text handler and the
search command, and neither the session (path included) nor the registry
changes. -/
theorem c10_unauthenticated_only_prompt (sections : List (String × Data))
    (inDb : Bool) (firstName : String) (uid : Nat) (now : Int) (text : String)
    (st : BotState) (h : st.session.authenticated = false) :
    handle_message sections inDb firstName uid now text st
        = (st, [.text authPromptMsg])
      ∧ search_command sections text st = (st, [.text authPromptMsg]) := by
  constructor
  · rw [handle_message, if_pos h]
  · rw [search_command, if_pos h]

theorem c10_unauthenticated_only_prompt_witness :
    handle_message [("s", Data.dict [])] true "N" 1 0 "s" ⟨⟨false, ["s"]⟩, [(2, 5)]⟩
        = (⟨⟨false, ["s"]⟩, [(2, 5)]⟩, [.text authPromptMsg])
      ∧ search_command [("s", Data.dict [])] "/search s" ⟨⟨false, ["s"]⟩, [(2, 5)]⟩
        = (⟨⟨false, ["s"]⟩, [(2, 5)]⟩, [.text authPromptMsg]) :=
  c10_unauthenticated_only_prompt [("s", Data.dict [])] true "N" 1 0 "s"
    ⟨⟨false, ["s"]⟩, [(2, 5)]⟩ rfl

/-- C4 counterexample.  In the tree whose item `Sec > Item` is the FieldSet
`Voltage: 12V`, the query `12` produces a search result whose matched text is
the field value `12V`, and the query `voltage` matches the field label — both
contrary to the claim that field labels and field values of a FieldSet are
never scanned. -/
theorem c4_fieldset_contents_scanned_cex :
    search_data "12"
        (.dict [("Sec", Data.dict [("Item", fieldSet [("Voltage", "12V")])])]) []
      = [(["Sec", "Item", "Voltage"], Data.str "12V")]
  ∧ search_data "voltage"
        (.dict [("Sec", Data.dict [("Item", fieldSet [("Voltage", "12V")])])]) []
      = [(["Sec", "Item", "Voltage"], Data.str "12V")] :=
  ⟨rfl, rfl⟩

/-- C4 (amended).  The scan does not distinguish a FieldSet from a Branch: on
a FieldSet it tests every field label as a key and every field value as plain
text, recording, per field in insertion order, the value at the field's path
once for a label match and once for a value match. -/
theorem c4_fieldset_scan_amended (q : String) (kvs : List (String × String))
    (path : List String) :
    search_data q (fieldSet kvs) path
      = (kvs.map fun p =>
          (if containsSub q p.1 then [(path ++ [p.1], Data.str p.2)] else [])
            ++ (if containsSub q p.2 then [(path ++ [p.1], Data.str p.2)] else [])).flatten := by
  induction kvs with
  | nil => simp [fieldSet, search_data, searchEntries]
  | cons p rest ih =>
    obtain ⟨k, v⟩ := p
    simp only [fieldSet, List.map_cons, List.flatten_cons] at ih ⊢
    simp only [search_data] at ih
    simp [search_data, searchEntries, ih]

/-- C7 counterexample.  In the tree with the single section label `abc` whose
leaf text is `abc`, the non-empty query `abc` is a case-insensitive substring
of exactly one leaf's plain-text description (the only text occurrence of the
scan), yet search returns two results: the label match and the text match. -/
theorem c7_unique_leaf_two_results_cex :
    ¬ ("abc" : String) = ""
  ∧ (scanOccs (Data.dict [("abc", Data.str "abc")]) []).filter
        (fun o => occIsTxt o && occMatches "abc" o) = [Occ.txtOcc ["abc"] "abc"]
  ∧ (search_data "abc" (Data.dict [("abc", Data.str "abc")]) []).length = 2 :=
  ⟨by decide, rfl, rfl⟩

/-- C7 (amended).  For every tree and non-empty query such that among all the
occurrences the scan tests (labels and plain texts) exactly one matches
case-insensitively, and that occurrence is a leaf's plain-text description,
search returns exactly one result: that leaf's text at that leaf's path. -/
theorem c7_unique_match_amended (q : String) (d : Data) (p : List String)
    (s : String) (_hq : q ≠ "")
    (h : (scanOccs d []).filter (occMatches q) = [Occ.txtOcc p s]) :
    search_data q d [] = [(p, Data.str s)] := by
  rw [search_data_eq, h]
  rfl

theorem c7_unique_match_amended_witness :
    ("ell" : String) ≠ ""
  ∧ (scanOccs (Data.dict [("k", Data.str "hello")]) []).filter (occMatches "ell")
      = [Occ.txtOcc ["k"] "hello"]
  ∧ search_data "ell" (Data.dict [("k", Data.str "hello")]) []
      = [(["k"], Data.str "hello")] :=
  ⟨by decide, rfl,
   c7_unique_match_amended "ell" (Data.dict [("k", Data.str "hello")]) ["k"] "hello"
     (by decide) rfl⟩

/-- A successful lookup means the membership test of the code succeeds. -/
theorem lookup_any (text : String) :
    ∀ (kvs : List (String × Data)) (w : Data),
    List.lookup text kvs = some w → (kvs.any fun p => p.1 == text) = true := by
  intro kvs
  induction kvs with
  | nil => intro w h; simp [List.lookup] at h
  | cons p rest ih =>
    obtain ⟨k, v⟩ := p
    intro w h
    by_cases hk : text = k
    · simp [hk]
    · have hbe : (text == k) = false := beq_eq_false_iff_ne.2 hk
      rw [List.lookup, hbe] at h
      have hke : (k == text) = false := beq_eq_false_iff_ne.2 (Ne.symm hk)
      simp only [List.any_cons, hke, Bool.false_or]
      exact ih w h

/-- Whatever the tree and the input, `navigate` never grows the path beyond
three segments. -/
theorem navigate_path_length (sections : List (String × Data)) (text : String) :
    ∀ p : List String, p.length ≤ 3 → (navigate sections text p).1.length ≤ 3 := by
  intro p hp
  match p with
  | [] =>
    by_cases h : (sections.any fun q => q.1 == text) = true <;>
      simp [navigate, h]
  | [s] =>
    cases hl : List.lookup s sections with
    | none => simp [navigate, hl]
    | some v =>
      by_cases hc : pyContains text v = true <;>
        simp [navigate, hl, hc]
  | [s, ss] =>
    cases hl : List.lookup s sections with
    | none => simp [navigate, hl]
    | some v =>
      cases v with
      | str t => simp [navigate, hl]
      | list l => simp [navigate, hl]
      | dict kvs =>
        cases hl2 : List.lookup ss kvs with
        | none => simp [navigate, hl, hl2]
        | some w =>
          cases w with
          | dict items =>
            by_cases hm : (items.any fun q => q.1 == text) = true
            · cases hl3 : List.lookup text items with
              | some dsc => simp [navigate, hl, hl2, hm, hl3]
              | none => simp [navigate, hl, hl2, hm, hl3]
            · simp [navigate, hl, hl2, hm]
          | str t =>
            by_cases hm : pyContains text (.str t) = true <;>
              simp [navigate, hl, hl2, hm]
          | list l =>
            by_cases hm : pyContains text (.list l) = true <;>
              simp [navigate, hl, hl2, hm]
  | a :: b :: c :: rest => simpa [navigate] using hp

/-- `search_command` never changes the state. -/
theorem search_command_state (sections : List (String × Data)) (text : String)
    (st : BotState) : (search_command sections text st).1 = st := by
  simp only [search_command]
  split_ifs <;> rfl

/-- C1 counterexample.  From an authenticated session at depth 2, selecting
the item label appends it: the stored path reaches three labels, outside the
claimed set of lengths 0, 1, 2. -/
theorem c1_path_three_cex :
    (handle_message [("s", Data.dict [("ss", Data.dict [("it", Data.str "d")])])]
        true "N" 1 0 "it" ⟨⟨true, ["s", "ss"]⟩, []⟩).1.session.path
      = ["s", "ss", "it"]
  ∧ (handle_message [("s", Data.dict [("ss", Data.dict [("it", Data.str "d")])])]
        true "N" 1 0 "it" ⟨⟨true, ["s", "ss"]⟩, []⟩).1.session.path.length = 3 :=
  ⟨rfl, rfl⟩

/-- C1 (amended).  Every operation of the core (the free-text handler with its
menu selection at any depth, back, main menu and nested session start, the
logout command, and the search command) keeps the session path length in the
set 0, 1, 2, 3: selecting an item at depth 2 pushes a third label, and no
operation grows the path further. -/
theorem c1_path_bound_amended (sections : List (String × Data)) (inDb : Bool)
    (firstName : String) (uid : Nat) (now : Int) (text : String) (st : BotState)
    (h : st.session.path.length ≤ 3) :
    (handle_message sections inDb firstName uid now text st).1.session.path.length ≤ 3
  ∧ (exit_bot st).1.session.path.length ≤ 3
  ∧ (search_command sections text st).1.session.path.length ≤ 3 := by
  refine ⟨?_, ?_, ?_⟩
  · rw [handle_message]
    split_ifs with hauth hb hm hs
    · exact h
    · simp only []
      calc (st.session.path.dropLast).length = st.session.path.length - 1 :=
            List.length_dropLast _
        _ ≤ 3 := by omega
    · simp [main_menu]
    · rw [start]
      split_ifs <;> simp [main_menu, h]
    · exact navigate_path_length sections text st.session.path h
  · rw [exit_bot]
    split_ifs <;> simp [h]
  · rw [search_command_state]
    exact h

theorem c1_path_bound_amended_witness :
    (["s", "ss"] : List String).length ≤ 3
  ∧ ((handle_message [("s", Data.dict [("ss", Data.dict [("it", Data.str "d")])])]
        true "N" 1 0 "it" ⟨⟨true, ["s", "ss"]⟩, []⟩).1.session.path.length ≤ 3
      ∧ (exit_bot ⟨⟨true, ["s", "ss"]⟩, []⟩).1.session.path.length ≤ 3
      ∧ (search_command [("s", Data.dict [("ss", Data.dict [("it", Data.str "d")])])]
          "it" ⟨⟨true, ["s", "ss"]⟩, []⟩).1.session.path.length ≤ 3) :=
  ⟨by decide,
   c1_path_bound_amended [("s", Data.dict [("ss", Data.dict [("it", Data.str "d")])])]
     true "N" 1 0 "it" ⟨⟨true, ["s", "ss"]⟩, []⟩ (by decide)⟩

theorem unrecognized_ne_error : unrecognizedMsg ≠ errorRetryMsg := by decide

/-- When the input matches no label at the current depth, `navigate` keeps the
path and emits the unrecognized-input reply exactly when the path is empty or
already has three or more segments. -/
theorem navigate_unmatched (sections : List (String × Data)) (text : String) :
    ∀ p : List String, labelMatches sections p text = false →
    (navigate sections text p).1 = p
  ∧ (Render.text unrecognizedMsg ∈ (navigate sections text p).2
      ↔ (p = [] ∨ 3 ≤ p.length)) := by
  intro p hmatch
  match p with
  | [] =>
    rw [labelMatches] at hmatch
    simp [navigate, hmatch]
  | [s] =>
    rw [labelMatches] at hmatch
    cases hl : List.lookup s sections with
    | none => simp [navigate, hl, unrecognized_ne_error]
    | some v =>
      simp only [hl] at hmatch
      simp [navigate, hl, hmatch]
  | [s, ss] =>
    rw [labelMatches] at hmatch
    cases hl : List.lookup s sections with
    | none => simp [navigate, hl, unrecognized_ne_error]
    | some v =>
      cases v with
      | str t => simp [navigate, hl, unrecognized_ne_error]
      | list l => simp [navigate, hl, unrecognized_ne_error]
      | dict kvs =>
        simp only [hl] at hmatch
        cases hl2 : List.lookup ss kvs with
        | none => simp [navigate, hl, hl2, unrecognized_ne_error]
        | some w =>
          simp only [hl2] at hmatch
          cases w with
          | dict items =>
            rw [pyContains] at hmatch
            simp [navigate, hl, hl2, hmatch]
          | str t => simp [navigate, hl, hl2, hmatch]
          | list l => simp [navigate, hl, hl2, hmatch]
  | a :: b :: c :: rest => simp [navigate]

/-- C2 counterexample.  An authenticated session at depth 1 receives the
unmatched, non-reserved input `zz`: the path is unchanged but no render
instruction at all is emitted — in particular no unrecognized-input reply. -/
theorem c2_silent_at_depth_cex :
    handle_message [("s", Data.dict [("ss", Data.dict [("it", Data.str "d")])])]
        true "N" 1 0 "zz" ⟨⟨true, ["s"]⟩, []⟩
      = (⟨⟨true, ["s"]⟩, [(1, 0)]⟩, ([] : List Render)) := rfl

/-- C2 (amended).  For every authenticated session and input that is neither a
reserved token (back, main menu, or the intercepted /start) nor a label
matching at the current depth, the handler leaves the path unchanged, and it
emits the unrecognized-input reply exactly when the path is empty (or already
has three or more segments) — at depths 1 and 2 it stays silent. -/
theorem c2_unmatched_amended (sections : List (String × Data)) (inDb : Bool)
    (firstName : String) (uid : Nat) (now : Int) (text : String) (st : BotState)
    (hauth : st.session.authenticated = true)
    (hb : text ≠ backBtn) (hm : text ≠ mainMenuBtn) (hs : text ≠ "/start")
    (hmatch : labelMatches sections st.session.path text = false) :
    (handle_message sections inDb firstName uid now text st).1.session.path
        = st.session.path
  ∧ (Render.text unrecognizedMsg
        ∈ (handle_message sections inDb firstName uid now text st).2
      ↔ (st.session.path = [] ∨ 3 ≤ st.session.path.length)) := by
  have hnav := navigate_unmatched sections text st.session.path hmatch
  rw [handle_message]
  rw [if_neg (by simp [hauth]), if_neg hb, if_neg hm, if_neg hs]
  exact ⟨hnav.1, hnav.2⟩

theorem c2_unmatched_amended_witness :
    ((⟨⟨true, ["s"]⟩, []⟩ : BotState).session.authenticated = true)
  ∧ (handle_message [("s", Data.dict [("ss", Data.dict [("it", Data.str "d")])])]
        true "N" 1 0 "zz" ⟨⟨true, ["s"]⟩, []⟩).1.session.path = ["s"]
  ∧ (Render.text unrecognizedMsg
        ∈ (handle_message [("s", Data.dict [("ss", Data.dict [("it", Data.str "d")])])]
            true "N" 1 0 "zz" ⟨⟨true, ["s"]⟩, []⟩).2
      ↔ ((["s"] : List String) = [] ∨ 3 ≤ (["s"] : List String).length)) :=
  ⟨rfl,
   (c2_unmatched_amended [("s", Data.dict [("ss", Data.dict [("it", Data.str "d")])])]
      true "N" 1 0 "zz" ⟨⟨true, ["s"]⟩, []⟩ rfl (by decide) (by decide) (by decide) rfl).1,
   (c2_unmatched_amended [("s", Data.dict [("ss", Data.dict [("it", Data.str "d")])])]
      true "N" 1 0 "zz" ⟨⟨true, ["s"]⟩, []⟩ rfl (by decide) (by decide) (by decide) rfl).2⟩

/-- C3 counterexample.  An authenticated session at depth 1 selects the
subsection `ss`, whose node is the plain-text leaf `d`: the label is pushed
and only the back/main-menu control row is offered, but the leaf content is
never rendered (no MarkdownV2 message is emitted), contrary to the claim. -/
theorem c3_leaf_subsection_cex :
    handle_message [("s", Data.dict [("ss", Data.str "d")])] true "N" 1 0 "ss"
        ⟨⟨true, ["s"]⟩, []⟩
      = (⟨⟨true, ["s", "ss"]⟩, [(1, 0)]⟩,
         [.menu [[backBtn, mainMenuBtn]] (chooseSubsubMsg "ss")])
  ∧ ((handle_message [("s", Data.dict [("ss", Data.str "d")])] true "N" 1 0 "ss"
        ⟨⟨true, ["s"]⟩, []⟩).2.any isLeafRender) = false :=
  ⟨rfl, rfl⟩

/-- C3 (amended).  At depth 1, on input matching a subsection label whose node
is a plain-text leaf, the navigator pushes the label and then offers only the
back/main-menu control row (the level prompt with no option rows); the leaf
content itself is not rendered. -/
theorem c3_leaf_subsection_amended (sections : List (String × Data))
    (s text d : String) (kvs : List (String × Data)) (st : BotState)
    (inDb : Bool) (firstName : String) (uid : Nat) (now : Int)
    (hsess : st.session = ⟨true, [s]⟩)
    (hs : List.lookup s sections = some (.dict kvs))
    (ht : List.lookup text kvs = some (.str d))
    (hb : text ≠ backBtn) (hm : text ≠ mainMenuBtn) (hst : text ≠ "/start") :
    handle_message sections inDb firstName uid now text st
      = (⟨⟨true, [s, text]⟩, setKey st.registry uid now⟩,
         [.menu [[backBtn, mainMenuBtn]] (chooseSubsubMsg text)]) := by
  have hany := lookup_any text kvs (.str d) ht
  rw [handle_message]
  rw [if_neg (by simp [hsess]), if_neg hb, if_neg hm, if_neg hst]
  rw [hsess]
  simp only [navigate, hs, pyContains, hany, if_true, show_current_level, ht]
  rfl

theorem c3_leaf_subsection_amended_witness :
    List.lookup "s" [("s", Data.dict [("ss", Data.str "d")])]
        = some (Data.dict [("ss", Data.str "d")])
  ∧ List.lookup "ss" [("ss", Data.str "d")] = some (Data.str "d")
  ∧ handle_message [("s", Data.dict [("ss", Data.str "d")])] true "N" 1 0 "ss"
        ⟨⟨true, ["s"]⟩, []⟩
      = (⟨⟨true, ["s", "ss"]⟩, [(1, 0)]⟩,
         [.menu [[backBtn, mainMenuBtn]] (chooseSubsubMsg "ss")]) :=
  ⟨rfl, rfl,
   c3_leaf_subsection_amended [("s", Data.dict [("ss", Data.str "d")])] "s" "ss" "d"
     [("ss", Data.str "d")] ⟨⟨true, ["s"]⟩, []⟩ true "N" 1 0 rfl rfl rfl
     (by decide) (by decide) (by decide)⟩

theorem str_append_assoc (a b c : String) : a ++ b ++ c = a ++ (b ++ c) :=
  String.ext (List.append_assoc a.data b.data c.data)

theorem nl_isWs : ('\n').isWhitespace = true := by decide

theorem underscore_isWs : ('_').isWhitespace = false := by decide

theorem bullet_isWs : ('•').isWhitespace = false := by decide

theorem data_bullet_star : ("• *" : String).data = ['•', ' ', '*'] := rfl

theorem data_mid : ("*: _" : String).data = ['*', ':', ' ', '_'] := rfl

theorem data_close_nl : ("_\n" : String).data = ['_', '\n'] := rfl

theorem data_space_star : (" *" : String).data = [' ', '*'] := rfl

theorem data_bullet : ("•" : String).data = ['•'] := rfl

theorem data_close : ("_" : String).data = ['_'] := rfl

theorem data_nl : ("\n" : String).data = ['\n'] := rfl

theorem data_close_nl_bullet : ("_\n•" : String).data = ['_', '\n', '•'] := rfl

theorem data_empty : ("" : String).data = [] := rfl

theorem joinLines_cons_cons (l l2 : String) (ls : List String) :
    joinLines (l :: l2 :: ls) = l ++ "\n" ++ joinLines (l2 :: ls) := rfl

/-- Stripping a block that starts with a bullet and ends in an underscore
followed by a newline removes exactly the final newline. -/
theorem pyStrip_wrap (w : String) :
    pyStrip ("•" ++ w ++ "_\n") = "•" ++ w ++ "_" := by
  apply String.ext
  show dropLeadingWs
      ((dropLeadingWs ((("•" ++ w ++ "_\n") : String).data.reverse)).reverse)
    = (("•" ++ w ++ "_") : String).data
  simp only [data_append, data_bullet, data_close_nl, data_close,
    List.reverse_append, List.reverse_cons, List.reverse_nil, List.nil_append,
    List.cons_append, List.append_assoc]
  rw [dropLeadingWs, if_pos nl_isWs, dropLeadingWs, if_neg (by rw [underscore_isWs]; simp)]
  simp only [List.reverse_cons, List.reverse_append, List.reverse_reverse,
    List.reverse_nil, List.nil_append, List.cons_append, List.append_assoc]
  rw [dropLeadingWs, if_neg (by rw [bullet_isWs]; simp)]

/-- The accumulating loop of `format_description` appends the field lines to
the accumulator. -/
theorem foldl_fieldLines (kvs : List (String × String)) :
    ∀ acc : String,
    ((kvs.map fun p => (p.1, Data.str p.2)).foldl
        (fun a p => a ++ fieldLine p.1 p.2) acc)
      = acc ++ kvs.foldr (fun p r => fieldLine p.1 (Data.str p.2) ++ r) "" := by
  induction kvs with
  | nil => intro acc; rw [List.map_nil, List.foldl_nil, List.foldr_nil,
      String.append_empty]
  | cons p rest ih =>
    intro acc
    obtain ⟨k, v⟩ := p
    rw [List.map_cons, List.foldl_cons, List.foldr_cons, ih, str_append_assoc]

/-- The concatenated field lines of a non-empty field set form a block that
starts with the bullet and ends in underscore plus newline, and the
newline-joined lines form the same block without the final newline. -/
theorem lines_wrap (kvs : List (String × String)) :
    ∀ k v : String,
    ∃ w : String,
      ((k, v) :: kvs).foldr (fun p r => fieldLine p.1 (Data.str p.2) ++ r) ""
          = "•" ++ w ++ "_\n"
      ∧ joinLines (((k, v) :: kvs).map fun p => "• *" ++ p.1 ++ "*: _" ++ p.2 ++ "_")
          = "•" ++ w ++ "_" := by
  induction kvs with
  | nil =>
    intro k v
    refine ⟨" *" ++ k ++ "*: _" ++ v, ?_, ?_⟩
    · rw [List.foldr_cons, List.foldr_nil, String.append_empty]
      apply String.ext
      simp [fieldLine, dataText, data_append, data_bullet_star, data_mid,
        data_close_nl, data_space_star, data_bullet, data_close]
    · rw [List.map_cons, List.map_nil]
      apply String.ext
      simp [joinLines, data_append, data_bullet_star, data_mid, data_close,
        data_space_star, data_bullet]
  | cons p rest ih =>
    intro k v
    obtain ⟨k2, v2⟩ := p
    obtain ⟨w', hw1, hw2⟩ := ih k2 v2
    refine ⟨" *" ++ k ++ "*: _" ++ v ++ "_\n•" ++ w', ?_, ?_⟩
    · rw [List.foldr_cons, hw1]
      apply String.ext
      simp [fieldLine, dataText, data_append, data_bullet_star, data_mid,
        data_close_nl, data_space_star, data_bullet, data_close,
        data_close_nl_bullet]
    · rw [List.map_cons] at hw2 ⊢
      rw [List.map_cons, joinLines_cons_cons, hw2]
      apply String.ext
      simp [data_append, data_bullet_star, data_mid, data_close,
        data_space_star, data_bullet, data_nl, data_close_nl_bullet]

theorem escape_append (a b : String) :
    escape_markdown (a ++ b) = escape_markdown a ++ escape_markdown b := by
  apply String.ext
  show ((a ++ b).data.map fun c => if isSpecialChar c then ['\\', c] else [c]).flatten
    = (escape_markdown a ++ escape_markdown b).data
  rw [data_append]
  simp [escape_markdown, List.map_append, List.flatten_append, data_append]

theorem escape_nl : escape_markdown "\n" = "\n" := rfl

/-- Escaping commutes with joining lines: the newline separator is not a
special character. -/
theorem escape_joinLines (ls : List String) :
    escape_markdown (joinLines ls) = joinLines (ls.map escape_markdown) := by
  induction ls with
  | nil => rfl
  | cons l rest ih =>
    cases rest with
    | nil => rfl
    | cons l2 rest2 =>
      rw [joinLines_cons_cons, escape_append, escape_append, escape_nl, ih]
      simp [List.map_cons, joinLines_cons_cons]

/-- C5 counterexample.  The single-field FieldSet `a: b` renders as the line
`• *a*: _b_` — with asterisks around the label and underscores around the
value — not as the claimed `• a: b`. -/
theorem c5_field_line_form_cex :
    format_description (fieldSet [("a", "b")]) = "• *a*: _b_"
  ∧ format_description (fieldSet [("a", "b")]) ≠ "• a: b" :=
  ⟨rfl, by decide⟩

/-- C5 (amended).  A FieldSet description renders as one line per field, in
insertion order, joined by newlines, each line of the form
bullet, label between asterisks, colon, value between underscores; the
whole rendered description then passes through the markup-escaping transform
(which escapes those emphasis markers too, line by line); a PlainText
description is rendered verbatim (then escaped). -/
theorem c5_fieldset_lines_amended (kvs : List (String × String)) (s : String) :
    format_description (fieldSet kvs)
        = joinLines (kvs.map fun p => "• *" ++ p.1 ++ "*: _" ++ p.2 ++ "_")
  ∧ escape_markdown (format_description (fieldSet kvs))
        = joinLines (kvs.map fun p =>
            escape_markdown ("• *" ++ p.1 ++ "*: _" ++ p.2 ++ "_"))
  ∧ format_description (Data.str s) = s := by
  have hmain : format_description (fieldSet kvs)
      = joinLines (kvs.map fun p => "• *" ++ p.1 ++ "*: _" ++ p.2 ++ "_") := by
    cases kvs with
    | nil => rfl
    | cons p rest =>
      obtain ⟨k, v⟩ := p
      obtain ⟨w, hw1, hw2⟩ := lines_wrap rest k v
      calc format_description (fieldSet ((k, v) :: rest))
          = pyStrip ((((k, v) :: rest).map fun p => (p.1, Data.str p.2)).foldl
              (fun a p => a ++ fieldLine p.1 p.2) "") := rfl
        _ = pyStrip ("" ++ ((k, v) :: rest).foldr
              (fun p r => fieldLine p.1 (Data.str p.2) ++ r) "") := by
              rw [foldl_fieldLines]
        _ = pyStrip ("•" ++ w ++ "_\n") := by rw [String.empty_append, hw1]
        _ = "•" ++ w ++ "_" := pyStrip_wrap w
        _ = joinLines (((k, v) :: rest).map
              fun p => "• *" ++ p.1 ++ "*: _" ++ p.2 ++ "_") := hw2.symm
  refine ⟨hmain, ?_, rfl⟩
  rw [hmain, escape_joinLines, List.map_map]
  rfl
